import Mathlib

/-!
Shallow embedding of the orientation-candidate clustering subsystem of
`hexrd/findorientations.py` (Python 2), together with theorems settling the
frozen claims about it.

Modelling conventions:
* a 4 x N quaternion matrix is a `List Quat` of its columns;
* Python floats are modelled as rationals (`ℚ`); the claims under study never
  depend on float rounding, only on comparisons and exact arithmetic;
* numpy / scipy / sklearn routines that live outside the repository are
  parameters of the embedding (fields of `Backends`, or function arguments),
  constrained only by their documented contracts where a claim needs it;
* exceptions are modelled with `Except`; the error type `PyError` records
  which Python exception escapes the function.
-/

namespace FindOrientations

/-- One quaternion column of a 4 x N array: components (q0, q1, q2, q3). -/
structure Quat where
  q0 : ℚ
  q1 : ℚ
  q2 : ℚ
  q3 : ℚ
deriving DecidableEq

/-- Crystal symmetry operators (`pd.getQSym()`): a 4 x m quaternion array,
modelled by its columns. -/
abbrev Qsym := List Quat

/-- `np.average` of a 1-d array (`sum / length`).  In the source it is only
applied to arrays of length `ngrains = 100`, so the empty case is irrelevant. -/
def npAverage (xs : List ℚ) : ℚ := xs.sum / (xs.length : ℚ)

/-- `np.round` to an integer: nearest integer, ties to even (numpy
half-to-even rounding). -/
def npRound (x : ℚ) : ℤ :=
  if x - (⌊x⌋ : ℚ) < 1/2 then ⌊x⌋
  else if 1/2 < x - (⌊x⌋ : ℚ) then ⌊x⌋ + 1
  else if ⌊x⌋ % 2 = 0 then ⌊x⌋ else ⌊x⌋ + 1

/-- `np.unique` on an integer vector: the sorted list of distinct values
(duplicates removed, then sorted ascending). -/
def npUnique (cl : List ℤ) : List ℤ := cl.dedup.insertionSort (fun a b => a ≤ b)

/-- The columns of `qfib_r[:, cl == cl_id]`: members of cluster `cl_id`.
`qfib_r` lists the columns, `cl` the per-column cluster ids. -/
def clusterMembers (qfib_r : List Quat) (cl : List ℤ) (cl_id : ℤ) : List Quat :=
  (qfib_r.zip cl).filterMap (fun p => if p.2 = cl_id then some p.1 else none)

/-- The distinct non-zero cluster ids of `cl` in ascending order (spec-side
description of the ids that `compute_centroids` averages over). -/
def sortedNonzeroIds (cl : List ℤ) : List ℤ :=
  (npUnique cl).filter (fun c => c != 0)

/-- Embedding of `compute_centroids` (findorientations.py lines 275-304).

`quatAverage` stands for `rot.quatAverage` from `hexrd.xrd.rotations`, which
is repository code not under src/; it is therefore a parameter here.

The source computes `clusters = np.unique(cl)`, evaluates `clusters[0]`
(an `IndexError` when `cl` is empty), asserts `clusters[0] >= 0`, drops a
leading 0 id (noise), and averages each remaining cluster.  `none` models the
`IndexError` / failed-`assert` outcomes.  The source line
`npts = sum(cl == i + 1)` binds a variable that is never used and is omitted. -/
def compute_centroids (quatAverage : List Quat → Qsym → Quat)
    (qfib_r : List Quat) (cl : List ℤ) (qsym : Qsym) : Option (List Quat) :=
  match npUnique cl with
  | [] => none
  | c0 :: rest =>
    if c0 < 0 then none
    else
      let clusters := if c0 = 0 then rest else c0 :: rest
      some (clusters.map (fun cl_id => quatAverage (clusterMembers qfib_r cl cl_id) qsym))

/-- The exception raised by a clustering strategy whose numerical backend is
missing (`class ClusterMethodUnavailableError(Exception): pass`, line 154).
As a bare Python 2 `Exception` subclass it carries only the constructor
arguments. -/
structure ClusterMethodUnavailableError where
  args : List String
deriving DecidableEq

/-- The Python exceptions that can escape the embedded functions. -/
inductive PyError
  /-- `AttributeError: ... object has no attribute <attr>`. -/
  | attributeError (attr : String)
  /-- `RuntimeError("Clustering <algorithm> not recognized")` (line 348). -/
  | runtimeErrorNotRecognized (algorithm : String)
  /-- `RuntimeError("Clustering <algorithm> failed, no fallback.")` (line 362). -/
  | runtimeErrorNoFallback (algorithm : String)
  /-- `AssertionError` / `IndexError` out of `compute_centroids`. -/
  | assertionOrIndexError
  /-- Marker for exhausting the step budget of the embedded `while` loop
  (the Python loop is unbounded; see `clusterDispatch`). -/
  | loopLimit
deriving DecidableEq

/-- Attribute lookup on a `ClusterMethodUnavailableError` instance.  In
Python 2 a bare `Exception` subclass instance exposes the attributes `args`
and the deprecated `message`; it has no `msg` attribute, so `error.msg`
(line 358 of the source) raises `AttributeError`. -/
def exceptionGetattr (e : ClusterMethodUnavailableError) (attr : String) :
    Except PyError String :=
  if attr = "args" then .ok (String.intercalate ", " e.args)
  else if attr = "message" then .ok (e.args.headD "")
  else .error (.attributeError attr)

/-- The argument tuple `[qfib_r, qsym, cl_radius, min_samples]` passed to
every clustering strategy (line 345). -/
structure ClusterArgs where
  qfib_r : List Quat
  qsym : Qsym
  cl_radius : ℚ
  min_samples : Option ℚ

/-- The registry entry `_clustering_option = namedtuple(..., ['fn', 'fallback'])`
(line 150).  A strategy either returns the integer cluster labels or raises
`ClusterMethodUnavailableError`. -/
structure _clustering_option where
  fn : ClusterArgs → Except ClusterMethodUnavailableError (List ℤ)
  fallback : Option String

/-- Observable `logger.info` events emitted by the dispatch loop. -/
inductive LogEvent
  /-- `"Trying <algorithm> over <n> orientations"` (line 352). -/
  | trying (algorithm : String) (n : ℕ)
  /-- `logger.info(error.msg)` (line 358), were it to succeed. -/
  | unavailableMessage (text : String)
  /-- `"Clustering <failed> failed, trying <next>."` (line 363). -/
  | substitution (failed next : String)
deriving DecidableEq

/-- Embedding of the `while algorithm is not None` dispatch loop of
`run_cluster` (lines 346-365).  On success it yields the labels, the name of
the strategy that produced them (`algorithm_used`) and the log events.

The Python loop is unbounded, so the embedding takes a step budget `fuel`;
`PyError.loopLimit` marks exhaustion.  In fact the loop can never revisit its
body: the `except` handler first evaluates `error.msg`, and
`exceptionGetattr` shows that this raises `AttributeError`, so any `fuel ≥ 1`
yields the behaviour of the source. -/
def clusterDispatch (cl_dict : String → Option _clustering_option)
    (cluster_args : ClusterArgs) :
    ℕ → String → Except PyError (List ℤ × String × List LogEvent)
  | 0, _ => .error .loopLimit
  | fuel + 1, algorithm =>
    match cl_dict algorithm with
    | none => .error (.runtimeErrorNotRecognized algorithm)
    | some opt =>
      match opt.fn cluster_args with
      | .ok cl =>
        .ok (cl, algorithm, [LogEvent.trying algorithm cluster_args.qfib_r.length])
      | .error err =>
        match exceptionGetattr err "msg" with
        | .error pe => .error pe
        | .ok text =>
          match opt.fallback with
          | none => .error (.runtimeErrorNoFallback algorithm)
          | some fb =>
            match clusterDispatch cl_dict cluster_args fuel fb with
            | .error pe => .error pe
            | .ok (cl, used, log) =>
              .ok (cl, used,
                LogEvent.trying algorithm cluster_args.qfib_r.length
                  :: LogEvent.unavailableMessage text
                  :: LogEvent.substitution algorithm fb :: log)

/-- The slice of `cfg.find_orientations.clustering` read by `run_cluster`. -/
structure ClusteringCfg where
  algorithm : String
  radius : ℚ
  completeness : ℚ

/-- The columns of `qfib[:, np.array(compl) > min_compl]`: orientations whose
completeness strictly exceeds the threshold. -/
def selectAbove (qfib : List Quat) (compl : List ℚ) (min_compl : ℚ) : List Quat :=
  (qfib.zip compl).filterMap (fun p => if min_compl < p.2 then some p.1 else none)

/-- Embedding of `run_cluster` (lines 307-392).

Parameters standing for code outside src/: `cl_dict` is the strategy registry
(in the source the module-level `_clustering_algorithm_dict`, see
`_clustering_algorithm_dict` below for its actual contents), `quatAverage` is
`rot.quatAverage`, and `fuel` bounds the unbounded `while` loop as in
`clusterDispatch`.

The source counts `num_above = sum(np.array(compl) > min_compl)`, returns an
empty result when it is 0, short-circuits to the single above-threshold
column with assignment `[1]` when it is 1, and otherwise dispatches to the
configured strategy and computes centroids.  The `np.savetxt` of
`clusters.dat` and the `logger.info` calls of `run_cluster` itself are
I/O-only and omitted. -/
def run_cluster (cl_dict : String → Option _clustering_option)
    (quatAverage : List Quat → Qsym → Quat) (fuel : ℕ)
    (compl : List ℚ) (qfib : List Quat) (qsym : Qsym) (cfg : ClusteringCfg)
    (min_samples : Option ℚ) (compl_thresh : Option ℚ) (radius : Option ℚ) :
    Except PyError (List Quat × List ℤ) :=
  let algorithm := cfg.algorithm
  let cl_radius := radius.getD cfg.radius
  let min_compl := compl_thresh.getD cfg.completeness
  let num_above := compl.countP (fun c => decide (min_compl < c))
  if num_above = 0 then
    .ok ([], [])
  else if num_above = 1 then
    .ok (selectAbove qfib compl min_compl, [1])
  else
    let qfib_r := selectAbove qfib compl min_compl
    match clusterDispatch cl_dict ⟨qfib_r, qsym, cl_radius, min_samples⟩ fuel algorithm with
    | .error e => .error e
    | .ok (cl, _used, _log) =>
      match compute_centroids quatAverage qfib_r cl qsym with
      | none => .error .assertionOrIndexError
      | some qbar => .ok (qbar, cl)

/-- The external numerical backends consumed by the registered strategies.
None of these live in this repository: `dbscan` is `sklearn.cluster.dbscan`
(returning the raw labels, noise marked `-1`), `omp_dbscan` is
`parallel_dbscan.omp_dbscan`, `fclusterdata` is
`scipy.cluster.hierarchy.fclusterdata` (flat cluster labels starting at 1),
`homochoricOfQuat` is `xfcapi.homochoricOfQuat`, `pairwise_distances` is
`sklearn.metrics.pairwise.pairwise_distances`, `quat_distance` is
`xfcapi.quat_distance` closed over the symmetry operators, and
`npSin` / `npRadians` are `np.sin` / `np.radians`.  The flags mirror the
module-level `have_sklearn` / `have_parallel_dbscan` import probes. -/
structure Backends where
  have_sklearn : Bool
  have_parallel_dbscan : Bool
  dbscan : List (List ℚ) → ℚ → Option ℚ → Bool → List ℤ
  omp_dbscan : List (List ℚ) → ℚ → Option ℚ → List ℤ
  fclusterdata : List (List ℚ) → ℚ → Option (List ℚ → List ℚ → ℚ) → List ℤ
  homochoricOfQuat : List Quat → List (List ℚ)
  pairwise_distances : List (List ℚ) → (List ℚ → List ℚ → ℚ) → List (List ℚ)
  quat_distance : Qsym → List ℚ → List ℚ → ℚ
  npSin : ℚ → ℚ
  npRadians : ℚ → ℚ

/-- A quaternion column as the row `qfib_r.T` would present it. -/
def quatRow (q : Quat) : List ℚ := [q.q0, q.q1, q.q2, q.q3]

/-- `np.ascontiguousarray(qfib_r[1:,:].T)`: rows of imaginary parts. -/
def quatImRows (qfib_r : List Quat) : List (List ℚ) :=
  qfib_r.map (fun q => [q.q1, q.q2, q.q3])

/-- Strategy `qim-dbscan` = `cluster_quaternion_im_dbscan` (lines 183-193):
dbscan on the imaginary parts with `eps = sin(0.5 * radians(radius))`;
labels are shifted by `+ 1`.  Raises unavailable without sklearn. -/
def cluster_quaternion_im_dbscan (b : Backends) (a : ClusterArgs) :
    Except ClusterMethodUnavailableError (List ℤ) :=
  if b.have_sklearn then
    let labels := b.dbscan (quatImRows a.qfib_r)
      (b.npSin (1/2 * b.npRadians a.cl_radius)) a.min_samples false
    .ok (labels.map (fun l => l + 1))
  else
    .error ⟨["required module sklearn >= 0.14 not found."]⟩

/-- Strategy `omp-dbscan` = `cluster_parallel_dbscan` (lines 196-205):
parallel dbscan on homochoric coordinates with `eps = radians(radius)`;
labels shifted by `+ 1`.  Raises unavailable without `parallel_dbscan`. -/
def cluster_parallel_dbscan (b : Backends) (a : ClusterArgs) :
    Except ClusterMethodUnavailableError (List ℤ) :=
  if b.have_parallel_dbscan then
    let labels := b.omp_dbscan (b.homochoricOfQuat a.qfib_r)
      (b.npRadians a.cl_radius) a.min_samples
    .ok (labels.map (fun l => l + 1))
  else
    .error ⟨["required module parallel_dbscan not found."]⟩

/-- Strategy `homochoric-dbscan` = `cluster_homochoric_dbscan`
(lines 208-219): sklearn dbscan on homochoric coordinates with
`eps = radians(radius)`; labels shifted by `+ 1`. -/
def cluster_homochoric_dbscan (b : Backends) (a : ClusterArgs) :
    Except ClusterMethodUnavailableError (List ℤ) :=
  if b.have_sklearn then
    let labels := b.dbscan (b.homochoricOfQuat a.qfib_r)
      (b.npRadians a.cl_radius) a.min_samples false
    .ok (labels.map (fun l => l + 1))
  else
    .error ⟨["required module sklearn >= 0.14 not found."]⟩

/-- Strategy `fclusterdata` = `cluster_fcluster` (lines 222-234):
hierarchical flat clustering of the quaternion rows at cutoff
`radians(radius)` with the symmetry-aware `quat_distance` metric.  The
C-contiguous reordering of `qsym` is representation-only and semantically the
identity.  Labels are returned as-is (no `+ 1`) and never raises. -/
def cluster_fcluster (b : Backends) (a : ClusterArgs) :
    Except ClusterMethodUnavailableError (List ℤ) :=
  .ok (b.fclusterdata (a.qfib_r.map quatRow) (b.npRadians a.cl_radius)
    (some (b.quat_distance a.qsym)))

/-- Strategy `qim-fclusterdata` = `cluster_qim_fclusterdata` (lines 237-248):
hierarchical flat clustering of the imaginary parts at cutoff
`sin(0.5 * radians(radius))` with the default metric; labels shifted by `+ 1`.
The source guards on sklearn (and binds an unused `dbscan`), raising
unavailable without it. -/
def cluster_qim_fclusterdata (b : Backends) (a : ClusterArgs) :
    Except ClusterMethodUnavailableError (List ℤ) :=
  if b.have_sklearn then
    let labels := b.fclusterdata (quatImRows a.qfib_r)
      (b.npSin (1/2 * b.npRadians a.cl_radius)) none
    .ok (labels.map (fun l => l + 1))
  else
    .error ⟨["required module sklearn >= 0.14 not found."]⟩

/-- Strategy `dbscan` = `cluster_dbscan` (lines 251-272): sklearn dbscan on a
precomputed symmetry-aware pairwise-distance matrix with
`eps = radians(radius)`; labels shifted by `+ 1`. -/
def cluster_dbscan (b : Backends) (a : ClusterArgs) :
    Except ClusterMethodUnavailableError (List ℤ) :=
  if b.have_sklearn then
    let pdist := b.pairwise_distances (a.qfib_r.map quatRow) (b.quat_distance a.qsym)
    let labels := b.dbscan pdist (b.npRadians a.cl_radius) a.min_samples true
    .ok (labels.map (fun l => l + 1))
  else
    .error ⟨["required module sklearn >= 0.14 not found."]⟩

/-- The registry `_clustering_algorithm_dict` as populated by the
`@clustering_algorithm` decorators (lines 183, 196, 208, 222, 237, 251),
with the fallback declared at each registration site. -/
def _clustering_algorithm_dict (b : Backends) : String → Option _clustering_option :=
  fun key =>
    if key = "qim-dbscan" then some ⟨cluster_quaternion_im_dbscan b, none⟩
    else if key = "omp-dbscan" then some ⟨cluster_parallel_dbscan b, some "homochoric-dbscan"⟩
    else if key = "homochoric-dbscan" then some ⟨cluster_homochoric_dbscan b, some "dbscan"⟩
    else if key = "fclusterdata" then some ⟨cluster_fcluster b, none⟩
    else if key = "qim-fclusterdata" then some ⟨cluster_qim_fclusterdata b, some "fclusterdata"⟩
    else if key = "dbscan" then some ⟨cluster_dbscan b, some "fclusterdata"⟩
    else none

/-! ### Fiber generator (`generate_orientation_fibers`, lines 60-147) -/

/-- Inputs of `generate_orientation_fibers` after the external labeling pass
(lines 90-105): for each seed reflection index `i < n_seeds`, `coms i` lists
the blob centroids in fractional (omega-bin, eta-bin) coordinates delivered by
`ndimage.center_of_mass`; an undefined (NaN) centroid is `none`.
`fiberOfSpot i ome_c eta_c` stands for the composite
`mutil.uniqueVectors(rot.discreteFiber(...))` — external crystallographic
code — returning the fiber columns for seed `i` at map angles
`(ome_c, eta_c)`.  `omeEdge0` / `etaEdge0` are `omeEdges[0]` / `etaEdges[0]`
and `del_ome` / `del_eta` the bin spacings. -/
structure FiberInputs where
  omeEdge0 : ℚ
  etaEdge0 : ℚ
  del_ome : ℚ
  del_eta : ℚ
  coms : ℕ → List (Option (ℚ × ℚ))
  fiberOfSpot : ℕ → ℚ → ℚ → List Quat
  n_seeds : ℕ

/-- The columns one labeled spot contributes (loop body, lines 114-144): a
spot with an undefined centroid is skipped (`np.isnan` guard, line 115);
otherwise the centroid is converted to cell-centre angles
`edge[0] + (0.5 + bin) * spacing` and the fiber is generated. -/
def spotContribution (inp : FiberInputs) (i : ℕ) (com : Option (ℚ × ℚ)) : List Quat :=
  match com with
  | none => []
  | some c =>
    inp.fiberOfSpot i (inp.omeEdge0 + (1/2 + c.1) * inp.del_ome)
      (inp.etaEdge0 + (1/2 + c.2) * inp.del_eta)

/-- The columns one seed reflection contributes: the source fills the
preallocated `qfib_tmp` left to right and keeps `qfib_tmp[:, :ii]`, which is
the concatenation of the per-spot fiber blocks in spot order. -/
def seedContribution (inp : FiberInputs) (i : ℕ) : List Quat :=
  ((inp.coms i).map (spotContribution inp i)).flatten

/-- Embedding of `generate_orientation_fibers`: `np.hstack(qfib)` over the
per-seed blocks.  `np.hstack` of an empty list raises `ValueError`, hence
`none` when there are no seed reflections; with at least one seed the result
is the concatenation, a 4 x 0 block when no blobs were found. -/
def generate_orientation_fibers (inp : FiberInputs) : Option (List Quat) :=
  if inp.n_seeds = 0 then none
  else some (((List.range inp.n_seeds).map (seedContribution inp)).flatten)

/-! ### Orchestrator (`find_orientations`, lines 461-615) -/

/-- `ngrains = 100` (line 567): the number of random trial orientations
simulated by the neighborhood-size estimator. -/
def ngrains : ℕ := 100

/-- The Monte-Carlo neighborhood-size estimate (lines 566-598).
`trialCounts i = (refl_per_grain[i], num_seed_refls[i])`: the external
`xrdutil.simulateGVecs` outcome for the i-th random grain — the total number
of simulated reflections and how many belong to the seed hkls.  Returns
`(min_samples, mean_rpg)` with
`min_samples = max(completeness * floor(average(num_seed_refls)), 2)` and
`mean_rpg = int(np.round(np.average(refl_per_grain)))`. -/
def neighborhoodSizeEstimate (completeness : ℚ) (trialCounts : ℕ → ℕ × ℕ) : ℚ × ℤ :=
  let refl_per_grain : List ℚ := (List.range ngrains).map (fun i => ((trialCounts i).1 : ℚ))
  let num_seed_refls : List ℚ := (List.range ngrains).map (fun i => ((trialCounts i).2 : ℚ))
  (max (completeness * (⌊npAverage num_seed_refls⌋ : ℚ)) 2,
    npRound (npAverage refl_per_grain))

/-- External collaborators of `find_orientations`:
`loadQuatGrid` is the outcome of `np.loadtxt(cfg.find_orientations.use_quaternion_grid)`
— `.error ()` models the caught `IOError` / `ValueError` (missing or
malformed grid file); `hkl_seeds` / `hklIdOf` give
`planeData.hklDataList[i]['hklID']`; `fiberResult` is the quaternion pool
produced by `generate_orientation_fibers` on the loaded maps; `paintGrid` is
the external completeness scorer `idx.paintGrid`; `trialCounts` as in
`neighborhoodSizeEstimate`. -/
structure OrchExternals where
  loadQuatGrid : Except Unit (List Quat)
  hkl_seeds : List ℕ
  hklIdOf : ℕ → ℤ
  fiberResult : List Quat
  paintGrid : List Quat → List ℚ
  trialCounts : ℕ → ℕ × ℕ

/-- Observable stages of the orchestrator. -/
inductive OrchStep
  /-- the full-grid branch was taken (`"Using %s for full quaternion search"`). -/
  | usedQuaternionGrid
  /-- the seeded branch was taken (`"Defaulting to seeded search"`). -/
  | seededSearch
  /-- `generate_orientation_fibers` was invoked (line 520). -/
  | generatedFibers
  /-- `idx.paintGrid` was invoked on `n` trial orientations (line 544). -/
  | ranPaintGrid (n : ℕ)
  /-- the Monte-Carlo estimator ran over `n` random grains (lines 566-598). -/
  | estimatedNeighborhood (n : ℕ)
deriving DecidableEq

/-- The `try: np.loadtxt ... except (IOError, ValueError)` search-mode branch
(lines 501-525): a readable grid file yields the grid with `hkl_ids = None`;
failure to locate or parse it is caught and the seeded path computes
`hkl_ids` from the seed list and generates fibers. -/
def selectSearchMode (ext : OrchExternals) :
    List Quat × Option (List ℤ) × List OrchStep :=
  match ext.loadQuatGrid with
  | .ok quats => (quats, none, [OrchStep.usedQuaternionGrid])
  | .error _ =>
    let hkl_ids := ext.hkl_seeds.map ext.hklIdOf
    (ext.fiberResult, some hkl_ids,
      [OrchStep.seededSearch, OrchStep.generatedFibers])

/-- The orchestrator observables the claims are about. -/
structure FindOrientationsResult where
  quats : List Quat
  hkl_ids : Option (List ℤ)
  compl : List ℚ
  min_samples : ℚ
  mean_rpg : ℤ
  steps : List OrchStep

/-- Embedding of the `find_orientations` flow up to (and determining the
parameters of) the final `run_cluster` call: search-mode selection, painting,
then `if hkl_ids is not None:` the Monte-Carlo estimate, `else`
`min_samples = 1; mean_rpg = 1` (lines 566-601). -/
def find_orientations_model (ext : OrchExternals) (completeness : ℚ) :
    FindOrientationsResult :=
  let sm := selectSearchMode ext
  let quats := sm.1
  let hkl_ids := sm.2.1
  let compl := ext.paintGrid quats
  match hkl_ids with
  | some ids =>
    let est := neighborhoodSizeEstimate completeness ext.trialCounts
    ⟨quats, some ids, compl, est.1, est.2,
      sm.2.2 ++ [OrchStep.ranPaintGrid quats.length,
        OrchStep.estimatedNeighborhood ngrains]⟩
  | none =>
    ⟨quats, none, compl, 1, 1, sm.2.2 ++ [OrchStep.ranPaintGrid quats.length]⟩

/-! ### Concrete instances used to evaluate the embedding -/

/-- The identity quaternion column. -/
def qIdent : Quat := ⟨1, 0, 0, 0⟩

/-- A second distinct quaternion column. -/
def qJ : Quat := ⟨0, 1, 0, 0⟩

/-- A concrete stand-in for `rot.quatAverage`: first member of the cluster.
On a singleton cluster this agrees with the spec of `quatAverage`
(the trivial average is the member). -/
def headAverage : List Quat → Qsym → Quat := fun l _ => l.headD qIdent

/-- Concrete backends: sklearn present, `parallel_dbscan` missing, the
density backend labeling every point into raw cluster 0 and the hierarchical
backend labeling every point into flat cluster 1. -/
def demoBackends : Backends :=
  ⟨true, false,
    fun data _ _ _ => data.map (fun _ => 0),
    fun data _ _ => data.map (fun _ => 0),
    fun data _ _ => data.map (fun _ => 1),
    fun qs => qs.map (fun q => [q.q1, q.q2, q.q3]),
    fun rows _ => rows,
    fun _ _ _ => 0,
    fun x => x,
    fun x => x⟩

/-- The same backends with sklearn absent. -/
def noSklearnBackends : Backends :=
  ⟨false, false,
    fun data _ _ _ => data.map (fun _ => 0),
    fun data _ _ => data.map (fun _ => 0),
    fun data _ _ => data.map (fun _ => 1),
    fun qs => qs.map (fun q => [q.q1, q.q2, q.q3]),
    fun rows _ => rows,
    fun _ _ _ => 0,
    fun x => x,
    fun x => x⟩

/-- Backends whose density labelers can emit noise (`-1` raw) and whose
hierarchical labeler emits flat clusters 1 and 2. -/
def witnessBackends : Backends :=
  ⟨true, true,
    fun _ _ _ _ => [-1, 0],
    fun _ _ _ => [-1],
    fun _ _ _ => [1, 2],
    fun qs => qs.map (fun q => [q.q1, q.q2, q.q3]),
    fun rows _ => rows,
    fun _ _ _ => 0,
    fun x => x,
    fun x => x⟩

/-- Two completeness scores, both above a threshold of 1. -/
def demoCompl : List ℚ := [2, 2]

/-- The matching two-column quaternion pool. -/
def demoQfib : List Quat := [qIdent, qJ]

/-- Strategy arguments used when probing a strategy directly. -/
def demoArgs : ClusterArgs := ⟨[qIdent, qJ], [], 5, some 2⟩

/-- Concrete orchestrator externals for the seeded path: the grid file fails
to load, every simulated grain sees 3 reflections of which 2 are seeds. -/
def demoExtSeeded : OrchExternals :=
  ⟨.error (), [0], fun _ => 7, [qIdent, qJ], fun qs => qs.map (fun _ => 1), fun _ => (3, 2)⟩

/-- Concrete orchestrator externals for the exhaustive path: the grid file
loads a one-column grid. -/
def demoExtGrid : OrchExternals :=
  ⟨.ok [qIdent], [0], fun _ => 7, [qIdent, qJ], fun qs => qs.map (fun _ => 1), fun _ => (3, 2)⟩

/-- Concrete fiber-generator inputs: one seed reflection whose labeling found
one defined blob, one NaN blob, and whose fiber at any angles is the identity
column. -/
def demoFiberInputs : FiberInputs :=
  ⟨0, 0, 1, 1, fun _ => [some (2, 3), none], fun _ _ _ => [qIdent], 1⟩

/-- A configuration naming an algorithm that is not registered. -/
def demoCfgUnknown : ClusteringCfg := ⟨"kmeans", 5, 1⟩

/-- The spec scenario configuration: completeness threshold 0.7
(written `Rat.divInt 7 10` so that the value evaluates by `decide`). -/
def demoCfgSpecScenario : ClusteringCfg := ⟨"dbscan", 5, Rat.divInt 7 10⟩

/-- Completeness 0.5, three times, for the spec scenario. -/
def demoHalfCompl : List ℚ := [Rat.divInt 1 2, Rat.divInt 1 2, Rat.divInt 1 2]

/-! ### Helper lemmas -/

theorem npUnique_sorted_le (cl : List ℤ) :
    List.Sorted (fun a b => a ≤ b) (npUnique cl) :=
  List.sorted_insertionSort _ _

theorem npUnique_nodup (cl : List ℤ) : (npUnique cl).Nodup :=
  (List.perm_insertionSort _ _).nodup_iff.mpr cl.nodup_dedup

theorem npUnique_sorted_lt (cl : List ℤ) :
    List.Sorted (fun a b => a < b) (npUnique cl) :=
  List.Sorted.lt_of_le (npUnique_sorted_le cl) (npUnique_nodup cl)

theorem mem_npUnique (cl : List ℤ) (x : ℤ) : x ∈ npUnique cl ↔ x ∈ cl := by
  unfold npUnique
  rw [(List.perm_insertionSort _ _).mem_iff]
  exact List.mem_dedup

theorem npUnique_ne_nil (cl : List ℤ) (h : cl ≠ []) : npUnique cl ≠ [] := by
  obtain ⟨x, hx⟩ := List.exists_mem_of_ne_nil cl h
  intro hcon
  have := (mem_npUnique cl x).mpr hx
  rw [hcon] at this
  exact (List.not_mem_nil x) this

theorem selectAbove_length (qfib : List Quat) (compl : List ℚ) (t : ℚ)
    (h : compl.length = qfib.length) :
    (selectAbove qfib compl t).length = compl.countP (fun c => decide (t < c)) := by
  induction qfib generalizing compl with
  | nil =>
    cases compl with
    | nil => simp [selectAbove]
    | cons c cs => simp at h
  | cons q qs ih =>
    cases compl with
    | nil => simp at h
    | cons c cs =>
      simp only [List.length_cons, Nat.succ.injEq] at h
      have ihx := ih cs h
      unfold selectAbove at ihx ⊢
      by_cases hc : t < c
      · simp [List.countP_cons, hc, ihx]
      · simp [List.countP_cons, hc, ihx]

theorem selectAbove_mem (qfib : List Quat) (compl : List ℚ) (t : ℚ) (q : Quat)
    (h : q ∈ selectAbove qfib compl t) :
    ∃ c : ℚ, (q, c) ∈ qfib.zip compl ∧ t < c := by
  unfold selectAbove at h
  rw [List.mem_filterMap] at h
  obtain ⟨p, hp, hval⟩ := h
  by_cases hc : t < p.2
  · simp only [hc, if_pos] at hval
    cases hval
    exact ⟨p.2, hp, hc⟩
  · simp [hc] at hval

theorem compute_centroids_eq (quatAverage : List Quat → Qsym → Quat)
    (qfib : List Quat) (cl : List ℤ) (qsym : Qsym)
    (hne : cl ≠ []) (hnn : ∀ c ∈ cl, 0 ≤ c) :
    compute_centroids quatAverage qfib cl qsym =
      some ((sortedNonzeroIds cl).map
        (fun cl_id => quatAverage (clusterMembers qfib cl cl_id) qsym)) := by
  rcases hcons : npUnique cl with _ | ⟨c0, rest⟩
  · exact absurd hcons (npUnique_ne_nil cl hne)
  · have hc0mem : c0 ∈ cl := by
      refine (mem_npUnique cl c0).mp ?_
      rw [hcons]
      exact List.mem_cons_self c0 rest
    have h0 : 0 ≤ c0 := hnn c0 hc0mem
    have hsorted : List.Sorted (fun a b => a < b) (c0 :: rest) := by
      rw [← hcons]
      exact npUnique_sorted_lt cl
    have hrest : ∀ x ∈ rest, c0 < x := (List.sorted_cons.mp hsorted).1
    unfold compute_centroids
    rw [hcons]
    simp only [if_neg (not_lt.mpr h0)]
    unfold sortedNonzeroIds
    rw [hcons]
    by_cases hz : c0 = 0
    · subst hz
      have hfil : rest.filter (fun c => c != 0) = rest := by
        refine List.filter_eq_self.mpr (fun a ha => ?_)
        have := hrest a ha
        simp only [bne_iff_ne, ne_eq, decide_eq_true_eq]
        omega
      simp [hfil]
    · have hfil : (c0 :: rest).filter (fun c => c != 0) = c0 :: rest := by
        refine List.filter_eq_self.mpr (fun a ha => ?_)
        simp only [bne_iff_ne, ne_eq, decide_eq_true_eq]
        rcases List.mem_cons.mp ha with rfl | ha2
        · exact hz
        · have := hrest a ha2
          omega
      simp [hz, hfil]

theorem sortedNonzeroIds_sorted (cl : List ℤ) :
    List.Sorted (fun a b => a < b) (sortedNonzeroIds cl) :=
  List.Pairwise.sublist (List.filter_sublist (npUnique cl)) (npUnique_sorted_lt cl)

theorem mem_sortedNonzeroIds (cl : List ℤ) (c : ℤ) :
    c ∈ sortedNonzeroIds cl ↔ c ∈ cl ∧ c ≠ 0 := by
  unfold sortedNonzeroIds
  rw [List.mem_filter, mem_npUnique]
  simp [bne_iff_ne]

theorem run_cluster_of_none_above (cl_dict : String → Option _clustering_option)
    (quatAverage : List Quat → Qsym → Quat) (fuel : ℕ)
    (compl : List ℚ) (qfib : List Quat) (qsym : Qsym) (cfg : ClusteringCfg)
    (min_samples compl_thresh radius : Option ℚ)
    (h : compl.countP (fun c => decide ((compl_thresh.getD cfg.completeness) < c)) = 0) :
    run_cluster cl_dict quatAverage fuel compl qfib qsym cfg
      min_samples compl_thresh radius = .ok ([], []) := by
  unfold run_cluster
  simp [h]

theorem run_cluster_of_one_above (cl_dict : String → Option _clustering_option)
    (quatAverage : List Quat → Qsym → Quat) (fuel : ℕ)
    (compl : List ℚ) (qfib : List Quat) (qsym : Qsym) (cfg : ClusteringCfg)
    (min_samples compl_thresh radius : Option ℚ)
    (hlen : compl.length = qfib.length)
    (h : compl.countP (fun c => decide ((compl_thresh.getD cfg.completeness) < c)) = 1) :
    ∃ q c, (q, c) ∈ qfib.zip compl ∧ (compl_thresh.getD cfg.completeness) < c ∧
      run_cluster cl_dict quatAverage fuel compl qfib qsym cfg
        min_samples compl_thresh radius =
          .ok ([q], [1]) := by
  have hsel : (selectAbove qfib compl (compl_thresh.getD cfg.completeness)).length = 1 := by
    rw [selectAbove_length qfib compl _ hlen, h]
  obtain ⟨q, hq⟩ := List.length_eq_one.mp hsel
  obtain ⟨c, hmem, hc⟩ := selectAbove_mem qfib compl _ q (by rw [hq]; exact List.mem_cons_self q [])
  refine ⟨q, c, hmem, hc, ?_⟩
  unfold run_cluster
  simp [h, hq]

/-! ### Claims -/

/-- Claim C1 (refuted by the code, evaluated at a failing input): the claim
states that when the configured strategy raises the backend-unavailable error
and declares a fallback, `run_cluster` substitutes the fallback, reports the
substitution, and returns the fallback's result.  In the source the `except`
handler first executes `logger.info(error.msg)` (line 358); a Python 2
`Exception` subclass has no `msg` attribute, so `AttributeError` escapes
before any substitution.  Here: strategy `omp-dbscan` is unavailable
(`parallel_dbscan` missing) and declares working fallback
`homochoric-dbscan`, yet `run_cluster` aborts with the `AttributeError`,
while invoking the fallback directly succeeds. -/
theorem claim_C1_fallback_preempted_by_attribute_error :
    run_cluster (_clustering_algorithm_dict demoBackends) headAverage 4
        demoCompl demoQfib [] ⟨"omp-dbscan", 5, 1⟩ (some 2) none none
      = .error (.attributeError "msg")
    ∧ run_cluster (_clustering_algorithm_dict demoBackends) headAverage 4
        demoCompl demoQfib [] ⟨"homochoric-dbscan", 5, 1⟩ (some 2) none none
      = .ok ([qIdent], [1, 1]) :=
  ⟨rfl, rfl⟩

/-- Claim C2: with exactly one orientation whose completeness strictly
exceeds the (possibly overridden) threshold, `run_cluster` returns that
orientation unchanged as the single centroid column with assignment `[1]`,
and no registered strategy is invoked: the result coincides with running
against an empty registry with no loop budget. -/
theorem claim_C2_single_orientation_short_circuit
    (cl_dict : String → Option _clustering_option)
    (quatAverage : List Quat → Qsym → Quat) (fuel : ℕ)
    (compl : List ℚ) (qfib : List Quat) (qsym : Qsym) (cfg : ClusteringCfg)
    (min_samples compl_thresh radius : Option ℚ)
    (hlen : compl.length = qfib.length)
    (h : compl.countP (fun c => decide ((compl_thresh.getD cfg.completeness) < c)) = 1) :
    (∃ q c, (q, c) ∈ qfib.zip compl ∧ (compl_thresh.getD cfg.completeness) < c ∧
      run_cluster cl_dict quatAverage fuel compl qfib qsym cfg
        min_samples compl_thresh radius = .ok ([q], [1]))
    ∧ run_cluster cl_dict quatAverage fuel compl qfib qsym cfg
        min_samples compl_thresh radius
      = run_cluster (fun _ => none) quatAverage 0 compl qfib qsym cfg
          min_samples compl_thresh radius := by
  refine ⟨run_cluster_of_one_above cl_dict quatAverage fuel compl qfib qsym cfg
    min_samples compl_thresh radius hlen h, ?_⟩
  unfold run_cluster
  simp [h]

/-- Claim C2 witness: completeness scores `[0, 2]` against threshold 1. -/
theorem claim_C2_witness :
    (([(0 : ℚ), 2]).length = ([qIdent, qJ] : List Quat).length
      ∧ ([(0 : ℚ), 2]).countP
          (fun c => decide (((none : Option ℚ).getD demoCfgUnknown.completeness) < c)) = 1)
    ∧ ((∃ q c, (q, c) ∈ ([qIdent, qJ].zip [(0 : ℚ), 2])
          ∧ ((none : Option ℚ).getD demoCfgUnknown.completeness) < c
          ∧ run_cluster (fun _ => none) headAverage 3 [(0 : ℚ), 2] [qIdent, qJ] []
              demoCfgUnknown none none none = .ok ([q], [1]))
        ∧ run_cluster (fun _ => none) headAverage 3 [(0 : ℚ), 2] [qIdent, qJ] []
            demoCfgUnknown none none none
          = run_cluster (fun _ => none) headAverage 0 [(0 : ℚ), 2] [qIdent, qJ] []
              demoCfgUnknown none none none) :=
  ⟨⟨rfl, by decide⟩,
    claim_C2_single_orientation_short_circuit (fun _ => none) headAverage 3
      [(0 : ℚ), 2] [qIdent, qJ] [] demoCfgUnknown none none none rfl (by decide)⟩

/-- Claim C3: when no completeness value strictly exceeds the (possibly
overridden) threshold, `run_cluster` returns an empty centroid set and empty
assignment without raising, and no strategy is invoked (the result coincides
with running against an empty registry with no loop budget). -/
theorem claim_C3_below_threshold_empty_result
    (cl_dict : String → Option _clustering_option)
    (quatAverage : List Quat → Qsym → Quat) (fuel : ℕ)
    (compl : List ℚ) (qfib : List Quat) (qsym : Qsym) (cfg : ClusteringCfg)
    (min_samples compl_thresh radius : Option ℚ)
    (h : ∀ c ∈ compl, c ≤ compl_thresh.getD cfg.completeness) :
    run_cluster cl_dict quatAverage fuel compl qfib qsym cfg
        min_samples compl_thresh radius = .ok ([], [])
    ∧ run_cluster cl_dict quatAverage fuel compl qfib qsym cfg
        min_samples compl_thresh radius
      = run_cluster (fun _ => none) quatAverage 0 compl qfib qsym cfg
          min_samples compl_thresh radius := by
  have hz : compl.countP
      (fun c => decide ((compl_thresh.getD cfg.completeness) < c)) = 0 := by
    refine List.countP_eq_zero.mpr (fun c hc => ?_)
    simpa using not_lt.mpr (h c hc)
  refine ⟨run_cluster_of_none_above cl_dict quatAverage fuel compl qfib qsym cfg
    min_samples compl_thresh radius hz, ?_⟩
  unfold run_cluster
  simp [hz]

/-- Claim C3 witness: the spec scenario — threshold 0.7, all completeness
values 0.5, a registered algorithm configured. -/
theorem claim_C3_witness :
    (∀ c ∈ demoHalfCompl, c ≤ (none : Option ℚ).getD demoCfgSpecScenario.completeness)
    ∧ (run_cluster (_clustering_algorithm_dict demoBackends) headAverage 5
          demoHalfCompl [qIdent, qJ, qIdent] [] demoCfgSpecScenario
          none none none = .ok ([], [])
        ∧ run_cluster (_clustering_algorithm_dict demoBackends) headAverage 5
            demoHalfCompl [qIdent, qJ, qIdent] [] demoCfgSpecScenario
            none none none
          = run_cluster (fun _ => none) headAverage 0
              demoHalfCompl [qIdent, qJ, qIdent] [] demoCfgSpecScenario
              none none none) :=
  ⟨by decide,
    claim_C3_below_threshold_empty_result (_clustering_algorithm_dict demoBackends)
      headAverage 5 demoHalfCompl [qIdent, qJ, qIdent] [] demoCfgSpecScenario
      none none none (by decide)⟩

/-- Claim C4 counterexample: the claim quantifies over every pair of
matching-length arrays with non-negative entries, including the empty pair,
where the source raises (`np.unique([])` is empty and `clusters[0]` is an
`IndexError`), rather than returning the zero-column centroid set the claim
implies; the embedding returns `none` there. -/
theorem counterexample_C4_empty_assignment :
    compute_centroids headAverage [] [] [] = none :=
  rfl

/-- Claim C4 as amended (restricted to a nonempty assignment vector,
which the counterexample forces): `compute_centroids` returns one centroid
per distinct non-zero cluster id, in ascending id order (id 0 excluded), each
the symmetry-aware average of the cluster members; a singleton cluster
yields its sole member, given the spec-modelled property of
`rot.quatAverage` that the trivial average of one quaternion is that
quaternion. -/
theorem claim_C4_centroids_per_nonzero_id
    (quatAverage : List Quat → Qsym → Quat) (qfib : List Quat) (cl : List ℤ)
    (qsym : Qsym)
    (hqa : ∀ q s, quatAverage [q] s = q)
    (hne : cl ≠ []) (hnn : ∀ c ∈ cl, 0 ≤ c) :
    compute_centroids quatAverage qfib cl qsym
        = some ((sortedNonzeroIds cl).map
            (fun cl_id => quatAverage (clusterMembers qfib cl cl_id) qsym))
    ∧ List.Sorted (fun a b => a < b) (sortedNonzeroIds cl)
    ∧ (∀ c : ℤ, c ∈ sortedNonzeroIds cl ↔ c ∈ cl ∧ c ≠ 0)
    ∧ (∀ cl_id ∈ sortedNonzeroIds cl, ∀ q : Quat,
        clusterMembers qfib cl cl_id = [q] →
          quatAverage (clusterMembers qfib cl cl_id) qsym = q) :=
  ⟨compute_centroids_eq quatAverage qfib cl qsym hne hnn,
    sortedNonzeroIds_sorted cl,
    mem_sortedNonzeroIds cl,
    fun _ _ q hq => by rw [hq]; exact hqa q qsym⟩

/-- Claim C4 witness: assignments `[2, 0, 1]` (one noise point, two singleton
clusters) over three orientation columns. -/
theorem claim_C4_witness :
    ((∀ q s, headAverage [q] s = q) ∧ ([(2 : ℤ), 0, 1]) ≠ []
      ∧ (∀ c ∈ [(2 : ℤ), 0, 1], 0 ≤ c))
    ∧ (compute_centroids headAverage [qIdent, qJ, qJ] [2, 0, 1] []
          = some ((sortedNonzeroIds [2, 0, 1]).map
              (fun cl_id => headAverage (clusterMembers [qIdent, qJ, qJ] [2, 0, 1] cl_id) []))
        ∧ List.Sorted (fun a b => a < b) (sortedNonzeroIds [2, 0, 1])
        ∧ (∀ c : ℤ, c ∈ sortedNonzeroIds [2, 0, 1] ↔ c ∈ [(2 : ℤ), 0, 1] ∧ c ≠ 0)
        ∧ (∀ cl_id ∈ sortedNonzeroIds [2, 0, 1], ∀ q : Quat,
            clusterMembers [qIdent, qJ, qJ] [2, 0, 1] cl_id = [q] →
              headAverage (clusterMembers [qIdent, qJ, qJ] [2, 0, 1] cl_id) [] = q)) :=
  ⟨⟨fun _ _ => rfl, by decide, by decide⟩,
    claim_C4_centroids_per_nonzero_id headAverage [qIdent, qJ, qJ] [2, 0, 1] []
      (fun _ _ => rfl) (by decide) (by decide)⟩

/-- Claim C5 (the code diverges from the exhausted-chain half, evaluated at a
failing input): an unregistered algorithm name does fail fatally with the
not-recognized `RuntimeError` as claimed; but a strategy that reports
unavailable and declares no fallback (`qim-dbscan` without sklearn) makes
`run_cluster` abort with the `AttributeError` from `error.msg` (line 358)
before reaching the `raise RuntimeError("Clustering ... failed, no
fallback.")` of line 361-362, which is unreachable — the failure is fatal but
never reports the exhausted chain. -/
theorem claim_C5_fatal_dispatch_paths :
    run_cluster (_clustering_algorithm_dict demoBackends) headAverage 4
        demoCompl demoQfib [] demoCfgUnknown (some 2) none none
      = .error (.runtimeErrorNotRecognized "kmeans")
    ∧ run_cluster (_clustering_algorithm_dict noSklearnBackends) headAverage 4
        demoCompl demoQfib [] ⟨"qim-dbscan", 5, 1⟩ (some 2) none none
      = .error (.attributeError "msg") :=
  ⟨rfl, rfl⟩

/-- Claim C10: with fewer than two orientations above the threshold the
registry is never consulted — the result does not depend on the registry, the
loop budget, or the configured algorithm name (registered or not), and the
call succeeds. -/
theorem claim_C10_registry_not_consulted_below_two
    (cl_dict1 cl_dict2 : String → Option _clustering_option)
    (quatAverage : List Quat → Qsym → Quat) (fuel1 fuel2 : ℕ)
    (compl : List ℚ) (qfib : List Quat) (qsym : Qsym)
    (alg1 alg2 : String) (r c : ℚ) (min_samples compl_thresh radius : Option ℚ)
    (h : compl.countP (fun x => decide ((compl_thresh.getD c) < x)) ≤ 1) :
    run_cluster cl_dict1 quatAverage fuel1 compl qfib qsym ⟨alg1, r, c⟩
        min_samples compl_thresh radius
      = run_cluster cl_dict2 quatAverage fuel2 compl qfib qsym ⟨alg2, r, c⟩
          min_samples compl_thresh radius
    ∧ ∃ res, run_cluster cl_dict1 quatAverage fuel1 compl qfib qsym ⟨alg1, r, c⟩
        min_samples compl_thresh radius = .ok res := by
  rcases Nat.le_one_iff_eq_zero_or_eq_one.mp h with h0 | h1
  · constructor
    · unfold run_cluster
      simp [h0]
    · exact ⟨([], []), run_cluster_of_none_above cl_dict1 quatAverage fuel1 compl qfib
        qsym ⟨alg1, r, c⟩ min_samples compl_thresh radius h0⟩
  · constructor
    · unfold run_cluster
      simp [h1]
    · refine ⟨(selectAbove qfib compl (compl_thresh.getD c), [1]), ?_⟩
      unfold run_cluster
      simp [h1]

/-- Claim C10 witness: an unregistered name against the real registry versus
another unregistered name against an empty registry, zero orientations above
threshold. -/
theorem claim_C10_witness :
    (([(0 : ℚ), 0]).countP (fun x => decide (((none : Option ℚ).getD 1) < x)) ≤ 1)
    ∧ (run_cluster (_clustering_algorithm_dict demoBackends) headAverage 4
          [(0 : ℚ), 0] [qIdent, qJ] [] ⟨"kmeans", 5, 1⟩ none none none
        = run_cluster (fun _ => none) headAverage 0
            [(0 : ℚ), 0] [qIdent, qJ] [] ⟨"mystery", 5, 1⟩ none none none
      ∧ ∃ res, run_cluster (_clustering_algorithm_dict demoBackends) headAverage 4
          [(0 : ℚ), 0] [qIdent, qJ] [] ⟨"kmeans", 5, 1⟩ none none none = .ok res) :=
  ⟨by decide,
    claim_C10_registry_not_consulted_below_two (_clustering_algorithm_dict demoBackends)
      (fun _ => none) headAverage 4 0 [(0 : ℚ), 0] [qIdent, qJ] [] "kmeans" "mystery"
      5 1 none none none (by decide)⟩

/-- Claim C6: for every strategy in the registry and every input on which it
succeeds, all returned cluster ids are non-negative — noise is 0 and real
clusters are positive — and an id of 0 can only come from one of the
density-based (dbscan-family) strategies, never from the hierarchical
(fclusterdata-based) ones.  The first three hypotheses are the documented
label contracts of the external backends (sklearn dbscan and
parallel_dbscan label noise `-1` and clusters from 0 up; scipy
`fclusterdata` labels flat clusters from 1 up). -/
theorem claim_C6_label_ranges (b : Backends)
    (hdb : ∀ data eps ms pre, ∀ l ∈ b.dbscan data eps ms pre, -1 ≤ l)
    (homp : ∀ data eps ms, ∀ l ∈ b.omp_dbscan data eps ms, -1 ≤ l)
    (hfc : ∀ data cutoff metric, ∀ l ∈ b.fclusterdata data cutoff metric, 1 ≤ l)
    (key : String) (opt : _clustering_option)
    (hreg : _clustering_algorithm_dict b key = some opt)
    (a : ClusterArgs) (cl : List ℤ) (hok : opt.fn a = .ok cl) :
    (∀ l ∈ cl, 0 ≤ l) ∧
    ((0 : ℤ) ∈ cl →
      key = "qim-dbscan" ∨ key = "omp-dbscan"
        ∨ key = "homochoric-dbscan" ∨ key = "dbscan") := by
  unfold _clustering_algorithm_dict at hreg
  split_ifs at hreg with h1 h2 h3 h4 h5 h6
  · rw [Option.some_inj] at hreg
    subst hreg
    unfold cluster_quaternion_im_dbscan at hok
    rcases hsk : b.have_sklearn with _ | _ <;> rw [hsk] at hok <;> simp at hok
    subst hok
    constructor
    · intro l hl
      obtain ⟨m, hm, rfl⟩ := List.mem_map.mp hl
      have := hdb _ _ _ _ m hm
      omega
    · intro _
      exact Or.inl h1
  · rw [Option.some_inj] at hreg
    subst hreg
    unfold cluster_parallel_dbscan at hok
    rcases hsk : b.have_parallel_dbscan with _ | _ <;> rw [hsk] at hok <;> simp at hok
    subst hok
    constructor
    · intro l hl
      obtain ⟨m, hm, rfl⟩ := List.mem_map.mp hl
      have := homp _ _ _ m hm
      omega
    · intro _
      exact Or.inr (Or.inl h2)
  · rw [Option.some_inj] at hreg
    subst hreg
    unfold cluster_homochoric_dbscan at hok
    rcases hsk : b.have_sklearn with _ | _ <;> rw [hsk] at hok <;> simp at hok
    subst hok
    constructor
    · intro l hl
      obtain ⟨m, hm, rfl⟩ := List.mem_map.mp hl
      have := hdb _ _ _ _ m hm
      omega
    · intro _
      exact Or.inr (Or.inr (Or.inl h3))
  · rw [Option.some_inj] at hreg
    subst hreg
    unfold cluster_fcluster at hok
    simp at hok
    subst hok
    constructor
    · intro l hl
      have := hfc _ _ _ l hl
      omega
    · intro h0
      have := hfc _ _ _ 0 h0
      omega
  · rw [Option.some_inj] at hreg
    subst hreg
    unfold cluster_qim_fclusterdata at hok
    rcases hsk : b.have_sklearn with _ | _ <;> rw [hsk] at hok <;> simp at hok
    subst hok
    constructor
    · intro l hl
      obtain ⟨m, hm, rfl⟩ := List.mem_map.mp hl
      have := hfc _ _ _ m hm
      omega
    · intro h0
      obtain ⟨m, hm, hm0⟩ := List.mem_map.mp h0
      have := hfc _ _ _ m hm
      omega
  · rw [Option.some_inj] at hreg
    subst hreg
    unfold cluster_dbscan at hok
    rcases hsk : b.have_sklearn with _ | _ <;> rw [hsk] at hok <;> simp at hok
    subst hok
    constructor
    · intro l hl
      obtain ⟨m, hm, rfl⟩ := List.mem_map.mp hl
      have := hdb _ _ _ _ m hm
      omega
    · intro _
      exact Or.inr (Or.inr (Or.inr h6))

/-- Claim C6 witness: the hierarchical `fclusterdata` strategy over backends
whose density labelers can emit noise; its labels `[1, 2]` are positive and
exclude 0. -/
theorem claim_C6_witness :
    (∀ l ∈ [(1 : ℤ), 2], 0 ≤ l) ∧
    ((0 : ℤ) ∈ [(1 : ℤ), 2] →
      "fclusterdata" = "qim-dbscan" ∨ "fclusterdata" = "omp-dbscan"
        ∨ "fclusterdata" = "homochoric-dbscan" ∨ "fclusterdata" = "dbscan") :=
  claim_C6_label_ranges witnessBackends
    (fun _ _ _ _ => show ∀ l ∈ [(-1 : ℤ), 0], -1 ≤ l by decide)
    (fun _ _ _ => show ∀ l ∈ [(-1 : ℤ)], -1 ≤ l by decide)
    (fun _ _ _ => show ∀ l ∈ [(1 : ℤ), 2], 1 ≤ l by decide)
    "fclusterdata" ⟨cluster_fcluster witnessBackends, none⟩ rfl
    demoArgs [1, 2] rfl

/-- Claim C7: in the seeded path (grid file failed to load) the
neighborhood-size estimate runs over exactly `ngrains = 100` random trial
orientations; `min_samples = max(completeness * floor(mean seed-reflection
count), 2)` is never below 2, and the diagnostic `mean_rpg` is the
half-to-even rounded average of the total per-grain reflection counts. -/
theorem claim_C7_min_samples_estimate (ext : OrchExternals) (completeness : ℚ)
    (hseed : ext.loadQuatGrid = .error ()) :
    (find_orientations_model ext completeness).min_samples
        = max (completeness *
            (⌊npAverage ((List.range 100).map (fun i => (((ext.trialCounts i).2 : ℕ) : ℚ)))⌋ : ℚ)) 2
    ∧ 2 ≤ (find_orientations_model ext completeness).min_samples
    ∧ (find_orientations_model ext completeness).mean_rpg
        = npRound (npAverage ((List.range 100).map (fun i => (((ext.trialCounts i).1 : ℕ) : ℚ))))
    ∧ ngrains = 100
    ∧ OrchStep.estimatedNeighborhood 100 ∈ (find_orientations_model ext completeness).steps := by
  unfold find_orientations_model selectSearchMode
  rw [hseed]
  unfold neighborhoodSizeEstimate ngrains
  refine ⟨rfl, ?_, rfl, rfl, ?_⟩
  · exact le_max_right _ _
  · simp

/-- Claim C7 witness: seeded externals where every simulated grain sees 3
reflections, 2 of them seeds. -/
theorem claim_C7_witness :
    demoExtSeeded.loadQuatGrid = .error ()
    ∧ ((find_orientations_model demoExtSeeded 1).min_samples
          = max ((1 : ℚ) *
              (⌊npAverage ((List.range 100).map (fun i => (((demoExtSeeded.trialCounts i).2 : ℕ) : ℚ)))⌋ : ℚ)) 2
        ∧ 2 ≤ (find_orientations_model demoExtSeeded 1).min_samples
        ∧ (find_orientations_model demoExtSeeded 1).mean_rpg
            = npRound (npAverage ((List.range 100).map (fun i => (((demoExtSeeded.trialCounts i).1 : ℕ) : ℚ))))
        ∧ ngrains = 100
        ∧ OrchStep.estimatedNeighborhood 100 ∈ (find_orientations_model demoExtSeeded 1).steps) :=
  ⟨rfl, claim_C7_min_samples_estimate demoExtSeeded 1 rfl⟩

/-- Claim C8: failure to locate or parse the quaternion-grid file is not an
error — it sends the orchestrator down the seeded path (fiber generation,
painting, then neighborhood estimation); a successfully read grid skips
fiber generation and neighborhood estimation and sets `min_samples = 1`. -/
theorem claim_C8_grid_branch_selection (ext : OrchExternals) (completeness : ℚ) :
    (∀ e : Unit, ext.loadQuatGrid = .error e →
      (find_orientations_model ext completeness).steps
          = [OrchStep.seededSearch, OrchStep.generatedFibers,
             OrchStep.ranPaintGrid ext.fiberResult.length,
             OrchStep.estimatedNeighborhood 100]
        ∧ (find_orientations_model ext completeness).quats = ext.fiberResult)
    ∧ (∀ g : List Quat, ext.loadQuatGrid = .ok g →
      (find_orientations_model ext completeness).steps
          = [OrchStep.usedQuaternionGrid, OrchStep.ranPaintGrid g.length]
        ∧ OrchStep.generatedFibers ∉ (find_orientations_model ext completeness).steps
        ∧ (∀ n : ℕ, OrchStep.estimatedNeighborhood n
            ∉ (find_orientations_model ext completeness).steps)
        ∧ (find_orientations_model ext completeness).min_samples = 1) := by
  constructor
  · intro e he
    unfold find_orientations_model selectSearchMode
    rw [he]
    exact ⟨rfl, rfl⟩
  · intro g hg
    unfold find_orientations_model selectSearchMode
    rw [hg]
    refine ⟨rfl, ?_, ?_, rfl⟩
    · simp
    · intro n
      simp

/-- Claim C8 witness: the two branches evaluated at concrete externals. -/
theorem claim_C8_witness :
    (demoExtSeeded.loadQuatGrid = .error ()
      ∧ ((find_orientations_model demoExtSeeded 1).steps
            = [OrchStep.seededSearch, OrchStep.generatedFibers,
               OrchStep.ranPaintGrid demoExtSeeded.fiberResult.length,
               OrchStep.estimatedNeighborhood 100]
          ∧ (find_orientations_model demoExtSeeded 1).quats = demoExtSeeded.fiberResult))
    ∧ (demoExtGrid.loadQuatGrid = .ok [qIdent]
      ∧ ((find_orientations_model demoExtGrid 1).steps
            = [OrchStep.usedQuaternionGrid, OrchStep.ranPaintGrid ([qIdent] : List Quat).length]
          ∧ OrchStep.generatedFibers ∉ (find_orientations_model demoExtGrid 1).steps
          ∧ (∀ n : ℕ, OrchStep.estimatedNeighborhood n
              ∉ (find_orientations_model demoExtGrid 1).steps)
          ∧ (find_orientations_model demoExtGrid 1).min_samples = 1)) :=
  ⟨⟨rfl, (claim_C8_grid_branch_selection demoExtSeeded 1).1 () rfl⟩,
    ⟨rfl, (claim_C8_grid_branch_selection demoExtGrid 1).2 [qIdent] rfl⟩⟩

/-- Claim C9: with at least one seed reflection, `generate_orientation_fibers`
returns normally (the concatenation over seeds); each seed's contribution is
exactly the concatenation over its defined-centroid blobs — blobs with an
undefined (NaN) centroid are skipped without contributing columns — and a
seed with zero detected blobs contributes zero columns. -/
theorem claim_C9_nan_blobs_skipped (inp : FiberInputs) (h : 0 < inp.n_seeds) :
    generate_orientation_fibers inp
        = some (((List.range inp.n_seeds).map (seedContribution inp)).flatten)
    ∧ (∀ i, seedContribution inp i
        = (((inp.coms i).filterMap id).map (fun c =>
            inp.fiberOfSpot i (inp.omeEdge0 + (1/2 + c.1) * inp.del_ome)
              (inp.etaEdge0 + (1/2 + c.2) * inp.del_eta))).flatten)
    ∧ (∀ i, inp.coms i = [] → seedContribution inp i = []) := by
  refine ⟨?_, ?_, ?_⟩
  · unfold generate_orientation_fibers
    rw [if_neg (Nat.pos_iff_ne_zero.mp h)]
  · intro i
    unfold seedContribution
    generalize inp.coms i = l
    induction l with
    | nil => simp
    | cons hd tl ih =>
      cases hd with
      | none => simpa [spotContribution] using ih
      | some c => simp [spotContribution, ih]
  · intro i hi
    unfold seedContribution
    rw [hi]
    simp

/-- Claim C9 witness: one seed reflection with one defined and one undefined
blob centroid. -/
theorem claim_C9_witness :
    0 < demoFiberInputs.n_seeds
    ∧ (generate_orientation_fibers demoFiberInputs
          = some (((List.range demoFiberInputs.n_seeds).map
              (seedContribution demoFiberInputs)).flatten)
        ∧ (∀ i, seedContribution demoFiberInputs i
            = (((demoFiberInputs.coms i).filterMap id).map (fun c =>
                demoFiberInputs.fiberOfSpot i
                  (demoFiberInputs.omeEdge0 + (1/2 + c.1) * demoFiberInputs.del_ome)
                  (demoFiberInputs.etaEdge0 + (1/2 + c.2) * demoFiberInputs.del_eta))).flatten)
        ∧ (∀ i, demoFiberInputs.coms i = [] → seedContribution demoFiberInputs i = [])) :=
  ⟨by decide, claim_C9_nan_blobs_skipped demoFiberInputs (by decide)⟩

end FindOrientations
